import Mathlib

/-!
Shallow embedding of the Voxium backend's two protocol engines
(src/backend/src/discord_gateway.rs and src/backend/src/remote_auth.rs),
with theorems settling the specification claims about them.

JSON values are modelled by an inductive mirroring serde_json::Value
(numbers restricted to integers, which is all the gateway reads via as_u64).
Inbound text frames are modelled by their parse result (`Option Json`):
`none` is a frame that is not valid JSON.  The actor's oneshot reply
channels are identified by natural numbers; resolving or dropping a reply
is an observable output of the step function.
-/

namespace Voxium

/-- JSON value, mirroring serde_json::Value as used by the backend. -/
inductive Json where
  | null
  | bool (b : Bool)
  | num (n : Int)
  | str (s : String)
  | arr (elems : List Json)
  | obj (fields : List (String × Json))
deriving Repr

/-- Object field access, mirroring serde_json::Value::get(key): `none` on
non-objects and missing keys. -/
def Json.get (j : Json) (k : String) : Option Json :=
  match j with
  | .obj fields => lookupField fields k
  | _ => none
where
  lookupField : List (String × Json) → String → Option Json
    | [], _ => none
    | (k', v) :: rest, k => if k' = k then some v else lookupField rest k

/-- Mirrors Value::as_str. -/
def Json.asStr : Json → Option String
  | .str s => some s
  | _ => none

/-- Mirrors Value::as_u64 (integers only in this model). -/
def Json.asU64 : Json → Option Nat
  | .num n => if 0 ≤ n then some n.toNat else none
  | _ => none

-- ── Association lists (model of std/Hash maps keyed by String) ──

/-- Lookup in an association list, mirroring HashMap::get. -/
def assocGet {β : Type} : List (String × β) → String → Option β
  | [], _ => none
  | (k', v) :: rest, k => if k' = k then some v else assocGet rest k

/-- Insert-or-overwrite, mirroring HashMap::insert. -/
def assocSet {β : Type} : List (String × β) → String → β → List (String × β)
  | [], k, v => [(k, v)]
  | (k', v') :: rest, k, v =>
      if k' = k then (k, v) :: rest else (k', v') :: assocSet rest k v

/-- Removal, mirroring HashMap::remove. -/
def assocRemove {β : Type} : List (String × β) → String → List (String × β)
  | [], _ => []
  | (k', v') :: rest, k =>
      if k' = k then assocRemove rest k else (k', v') :: assocRemove rest k

-- ── Gateway data model (discord_gateway.rs) ─────────────

/-- Mirrors struct VoiceServerInfo. -/
structure VoiceServerInfo where
  token : String
  endpoint : Option String
  guild_id : Option String
  session_id : String
  user_id : String
deriving Repr, DecidableEq

/-- Mirrors struct VoiceParticipant. -/
structure VoiceParticipant where
  user_id : String
  channel_id : Option String
  display_name : Option String
  avatar_url : Option String
deriving Repr, DecidableEq

/-- Mirrors VoicePresenceState.by_guild : guild_id -> user_id -> participant. -/
def PresenceState := List (String × List (String × VoiceParticipant))

/-- Commands sent from HTTP handlers to the gateway task (enum GatewayCommand).
The oneshot reply sender is identified by a natural number. -/
inductive GatewayCommand where
  | joinVoice (guild_id channel_id : String) (reply : Nat)
  | leaveVoice (guild_id : String) (reply : Nat)
deriving Repr, DecidableEq

/-- Outbound gateway frames built by run_gateway.  Constant fields of the
JSON payloads (self_mute, self_deaf, identify properties, …) are elided;
the fields the logic varies are kept. -/
inductive OutFrame where
  | identify
  | heartbeat (seq : Option Nat)
  | voiceState (guild_id : String) (channel_id : Option String)
deriving Repr, DecidableEq

instance {ε α : Type} [DecidableEq ε] [DecidableEq α] :
    DecidableEq (Except ε α) := fun
  | .error e, .error f =>
      if h : e = f then .isTrue (by rw [h])
      else .isFalse (by intro H; cases H; exact h rfl)
  | .error _, .ok _ => .isFalse (by intro H; cases H)
  | .ok _, .error _ => .isFalse (by intro H; cases H)
  | .ok a, .ok b =>
      if h : a = b then .isTrue (by rw [h])
      else .isFalse (by intro H; cases H; exact h rfl)

/-- Observable effects of one iteration of run_gateway's select loop. -/
inductive GwOutput where
  | sendFrame (f : OutFrame)
  | startHeartbeat (intervalMs : Nat)
  | sleepMs (ms : Nat)
  | resolveJoin (reply : Nat) (result : Except String VoiceServerInfo)
  | resolveLeave (reply : Nat) (result : Except String Unit)
  | dropJoinReply (reply : Nat)
deriving Repr, DecidableEq

/-- Local state of run_gateway (the `let mut` bindings of the task).
queuedJoin holds the only command shape ever queued (JoinVoice, line 476):
guild_id, channel_id, reply. -/
structure GwState where
  heartbeatIntervalMs : Nat := 41250
  sequence : Option Nat := none
  sessionId : Option String := none
  identified : Bool := false
  pendingVoiceJoin : Option (String × String × Nat) := none
  queuedJoin : Option (String × String × Nat) := none
  voiceToken : Option String := none
  voiceEndpoint : Option String := none
  voiceGuildId : Option String := none
  discordUserId : Option String := none
  running : Bool := true
  presence : PresenceState := []

/-- Events multiplexed by run_gateway's tokio::select. A text frame is
carried as its serde_json parse result. -/
inductive GwEvent where
  | text (payload : Option Json)
  | closeFrame
  | streamEnd
  | otherFrame
  | hbTick
  | cmd (c : GatewayCommand)
  | cmdClosed

/-- Event user id extraction of the VOICE_STATE_UPDATE handler:
d.user_id, or else d.member.user.id, defaulting to the empty string. -/
def eventUserIdOf (data : Json) : String :=
  (((data.get "user_id").bind Json.asStr).orElse
    (fun _ =>
      (((data.get "member").bind (fun m => m.get "user")).bind
        (fun u => u.get "id")).bind Json.asStr)).getD ""

/-- Display-name extraction: member.nick, or else member.user.global_name,
or else member.user.username. -/
def displayNameOf (data : Json) : Option String :=
  (((data.get "member").bind (fun m => m.get "nick")).bind Json.asStr).orElse
    (fun _ =>
      ((((data.get "member").bind (fun m => m.get "user")).bind
          (fun u => u.get "global_name")).bind Json.asStr).orElse
        (fun _ =>
          (((data.get "member").bind (fun m => m.get "user")).bind
            (fun u => u.get "username")).bind Json.asStr))

/-- Avatar URL built from member.user.avatar. -/
def avatarUrlOf (data : Json) (eventUserId : String) : Option String :=
  ((((data.get "member").bind (fun m => m.get "user")).bind
      (fun u => u.get "avatar")).bind Json.asStr).map
    (fun hash =>
      "https://cdn.discordapp.com/avatars/" ++ eventUserId ++ "/" ++ hash
        ++ ".png?size=64")

/-- Presence-cache mutation of the VOICE_STATE_UPDATE handler
(discord_gateway.rs lines 299-356): for a non-empty guild and user id,
a null/absent channel removes the user from the guild map, otherwise the
participant entry is inserted or overwritten. -/
def updatePresence (presence : PresenceState) (data : Json) : PresenceState :=
  let guildId := ((data.get "guild_id").bind Json.asStr).getD ""
  let channelId := (data.get "channel_id").bind Json.asStr
  let eventUserId := eventUserIdOf data
  if guildId ≠ "" ∧ eventUserId ≠ "" then
    let guildMap := (assocGet presence guildId).getD []
    let guildMap' :=
      if channelId.isNone then assocRemove guildMap eventUserId
      else
        assocSet guildMap eventUserId
          { user_id := eventUserId
            channel_id := channelId
            display_name := displayNameOf data
            avatar_url := avatarUrlOf data eventUserId }
    assocSet presence guildId guildMap'
  else presence

/-- Dispatch READY / READY_SUPPLEMENTAL handler: on READY capture
session_id and user id from d, then replay any queued join (clearing the
captured voice fields, storing the pending join, sending the op-4 frame). -/
def handleReady (s : GwState) (eventName : String) (d : Option Json) :
    GwState × List GwOutput :=
  let s1 :=
    if eventName = "READY" then
      match d with
      | some data =>
          { s with
            sessionId := (data.get "session_id").bind Json.asStr
            discordUserId :=
              ((data.get "user").bind (fun u => u.get "id")).bind Json.asStr }
      | none => s
    else s
  match s1.queuedJoin with
  | some (g, c, reply) =>
      ({ s1 with
          queuedJoin := none
          voiceToken := none
          voiceEndpoint := none
          voiceGuildId := none
          pendingVoiceJoin := some (g, c, reply) },
        [.sendFrame (.voiceState g (some c))])
  | none => (s1, [])

/-- Dispatch VOICE_STATE_UPDATE handler: update the presence cache, then,
if the event is for the session owner and token and endpoint were already
captured, resolve the pending join with the assembled VoiceServerInfo. -/
def handleVoiceStateUpdate (s : GwState) (d : Option Json) :
    GwState × List GwOutput :=
  match d with
  | none => (s, [])
  | some data =>
      let s1 := { s with presence := updatePresence s.presence data }
      let eventUserId := eventUserIdOf data
      let ourId := s1.discordUserId.getD ""
      if eventUserId = ourId then
        if s1.voiceToken.isSome ∧ s1.voiceEndpoint.isSome then
          match s1.pendingVoiceJoin with
          | some (_, _, reply) =>
              let info : VoiceServerInfo :=
                { token := s1.voiceToken.getD ""
                  endpoint := s1.voiceEndpoint
                  guild_id := s1.voiceGuildId
                  session_id := s1.sessionId.getD ""
                  user_id := ourId }
              ({ s1 with
                  pendingVoiceJoin := none
                  voiceToken := none
                  voiceEndpoint := none
                  voiceGuildId := none },
                [.resolveJoin reply (.ok info)])
          | none => (s1, [])
        else (s1, [])
      else (s1, [])

/-- Dispatch VOICE_SERVER_UPDATE handler (discord_gateway.rs lines
388-417): capture token, endpoint, guild from d, then resolve the pending
join unconditionally if one is present. -/
def handleVoiceServerUpdate (s : GwState) (d : Option Json) :
    GwState × List GwOutput :=
  match d with
  | none => (s, [])
  | some data =>
      let s1 :=
        { s with
          voiceToken := (data.get "token").bind Json.asStr
          voiceEndpoint := (data.get "endpoint").bind Json.asStr
          voiceGuildId := (data.get "guild_id").bind Json.asStr }
      match s1.pendingVoiceJoin with
      | some (_, _, reply) =>
          let info : VoiceServerInfo :=
            { token := s1.voiceToken.getD ""
              endpoint := s1.voiceEndpoint
              guild_id := s1.voiceGuildId
              session_id := s1.sessionId.getD ""
              user_id := s1.discordUserId.getD "" }
          ({ s1 with
              pendingVoiceJoin := none
              voiceToken := none
              voiceEndpoint := none
              voiceGuildId := none },
            [.resolveJoin reply (.ok info)])
      | none => (s1, [])

/-- Dispatch (op 0) handler: route on the event name t; unlisted events are
ignored. -/
def handleDispatch (s : GwState) (payload : Json) : GwState × List GwOutput :=
  let eventName := ((payload.get "t").bind Json.asStr).getD ""
  let d := payload.get "d"
  if eventName = "READY" ∨ eventName = "READY_SUPPLEMENTAL" then
    handleReady s eventName d
  else if eventName = "VOICE_STATE_UPDATE" then handleVoiceStateUpdate s d
  else if eventName = "VOICE_SERVER_UPDATE" then handleVoiceServerUpdate s d
  else (s, [])

/-- Handler for a parsed inbound text frame: update the sequence from s,
then dispatch on op (10 Hello, 11 HeartbeatAck, 0 Dispatch, 7 Reconnect,
9 InvalidSession; anything else ignored). -/
def handleTextPayload (s : GwState) (payload : Json) :
    GwState × List GwOutput :=
  let s0 :=
    match (payload.get "s").bind Json.asU64 with
    | some n => { s with sequence := some n }
    | none => s
  let op := ((payload.get "op").bind Json.asU64).getD 999
  if op = 10 then
    let s1 :=
      match ((payload.get "d").bind (fun d => d.get "heartbeat_interval")).bind
          Json.asU64 with
      | some i => { s0 with heartbeatIntervalMs := i }
      | none => s0
    let hbOut := GwOutput.startHeartbeat s1.heartbeatIntervalMs
    if s1.identified then (s1, [hbOut])
    else ({ s1 with identified := true }, [hbOut, .sendFrame .identify])
  else if op = 11 then (s0, [])
  else if op = 0 then handleDispatch s0 payload
  else if op = 7 then ({ s0 with running := false }, [])
  else if op = 9 then
    match s0.pendingVoiceJoin with
    | some (_, _, reply) =>
        ({ s0 with running := false, pendingVoiceJoin := none },
          [.resolveJoin reply (.error "Discord session invalid")])
    | none => ({ s0 with running := false }, [])
  else (s0, [])

/-- JoinVoice command handler (discord_gateway.rs lines 472-532): queue if
not yet READY (overwriting — and thereby dropping — any older queued join's
reply sender); otherwise fail any pending join as superseded, send a leave
frame for the guild, sleep 200 ms, clear the captured voice fields, store
the pending join and send the op-4 join frame, failing the new join if
that send errors. -/
def handleJoinCmd (sendOk : Bool) (s : GwState) (g c : String) (reply : Nat) :
    GwState × List GwOutput :=
  if s.sessionId.isNone then
    match s.queuedJoin with
    | some (_, _, oldReply) =>
        ({ s with queuedJoin := some (g, c, reply) }, [.dropJoinReply oldReply])
    | none => ({ s with queuedJoin := some (g, c, reply) }, [])
  else
    let (s1, out1) :=
      match s.pendingVoiceJoin with
      | some (_, _, oldReply) =>
          ({ s with pendingVoiceJoin := none },
            [GwOutput.resolveJoin oldReply
              (.error "Superseded by new join request")])
      | none => (s, [])
    let out2 := [GwOutput.sendFrame (.voiceState g none), GwOutput.sleepMs 200]
    let s2 :=
      { s1 with
        voiceToken := none
        voiceEndpoint := none
        voiceGuildId := none
        pendingVoiceJoin := some (g, c, reply) }
    let out3 := [GwOutput.sendFrame (.voiceState g (some c))]
    if sendOk then (s2, out1 ++ out2 ++ out3)
    else
      ({ s2 with pendingVoiceJoin := none },
        out1 ++ out2 ++ out3
          ++ [.resolveJoin reply (.error "Failed to send voice state update")])

/-- LeaveVoice command handler (discord_gateway.rs lines 534-551): send the
op-4 channel-null frame and resolve the reply immediately with the send
outcome. -/
def handleLeaveCmd (sendOk : Bool) (s : GwState) (g : String) (reply : Nat) :
    GwState × List GwOutput :=
  if sendOk then
    (s, [.sendFrame (.voiceState g none), .resolveLeave reply (.ok ())])
  else
    (s, [.sendFrame (.voiceState g none),
          .resolveLeave reply (.error "Failed to send voice leave")])

/-- One iteration of run_gateway's select loop. `sendOk` models whether
WebSocket sends succeed during this iteration. -/
def gwStep (sendOk : Bool) (s : GwState) (e : GwEvent) :
    GwState × List GwOutput :=
  match e with
  | .text none => (s, [])
  | .text (some payload) => handleTextPayload s payload
  | .closeFrame => ({ s with running := false }, [])
  | .streamEnd => ({ s with running := false }, [])
  | .otherFrame => (s, [])
  | .hbTick =>
      (if sendOk then s else { s with running := false },
        [.sendFrame (.heartbeat s.sequence)])
  | .cmd (.joinVoice g c reply) => handleJoinCmd sendOk s g c reply
  | .cmd (.leaveVoice g reply) => handleLeaveCmd sendOk s g reply
  | .cmdClosed => ({ s with running := false }, [])

/-- The while-running select loop over a list of arriving events. -/
def runGwLoop (sendOk : Bool) (s : GwState) :
    List GwEvent → GwState × List GwOutput
  | [] => (s, [])
  | e :: es =>
      if s.running then
        let r1 := gwStep sendOk s e
        let r2 := runGwLoop sendOk r1.1 es
        (r2.1, r1.2 ++ r2.2)
      else (s, [])

/-- Post-loop cleanup of run_gateway (lines 561-566): fail any still
pending join. -/
def gwCleanup (s : GwState) : GwState × List GwOutput :=
  match s.pendingVoiceJoin with
  | some (_, _, reply) =>
      ({ s with pendingVoiceJoin := none },
        [.resolveJoin reply (.error "Gateway connection closed")])
  | none => (s, [])

/-- Number of times a given reply channel is resolved in an output trace. -/
def resolveJoinCount (outs : List GwOutput) (reply : Nat) : Nat :=
  outs.countP (fun o =>
    match o with
    | .resolveJoin r _ => r = reply
    | _ => false)

-- ── Remote-Auth QR flow (remote_auth.rs) ────────────────

/-- Mirrors enum QrStatus. -/
inductive QrStatus where
  | connecting
  | waitingForQr
  | qrReady (qr_url ra_url : String)
  | scanned
  | completing
  | completed (auth : Json)
  | error (message : String)
  | cancelled
deriving Repr

/-- Terminal statuses, as tested by the Close/None arm of the flow loop. -/
def QrStatus.isTerminal : QrStatus → Bool
  | .completed _ => true
  | .error _ => true
  | .cancelled => true
  | _ => false

/-- Modelled from the spec: the flow's external collaborators, which are
out of scope per spec section 1 — the rsa / sha2 / base64 crates
(RSA-OAEP decryption with a SHA-256 digest, standard base64 decoding,
URL-safe unpadded base64 encoding), the QR text-to-image renderer, the
ticket REST exchange (finalize_with_ticket's network part) and the
decrypt-and-login helper used by the finish op.  Byte strings are lists of
naturals; fallible operations return Option/Except. -/
structure AuthEnv where
  sendOk : Bool
  encodedPublicKey : String
  b64stdDecode : String → Option (List Nat)
  rsaDecrypt : List Nat → Option (List Nat)
  sha256 : List Nat → List Nat
  b64urlNoPadEncode : List Nat → String
  qrDataUri : String → Except String String
  finalizeTicket : String → Except String Json
  decryptAndLogin : String → Except String Json

/-- State of run_remote_auth_flow visible across loop iterations: the
session's polled status (set_status writes, assuming the session is still
registered) and whether the heartbeat sub-task is live. -/
structure RaState where
  status : QrStatus := .connecting
  hbRunning : Bool := false

/-- Observable sends of the flow loop. -/
inductive RaOutput where
  | startHeartbeat (intervalMs : Nat)
  | sendInit (encodedPublicKey : String)
  | sendNonceProof (proof : String)
deriving Repr, DecidableEq

/-- Events multiplexed by the flow's tokio::select: the external cancel
signal, a text frame (carried as its parse result), a Close frame or
stream end, a socket error, or an ignored frame kind. -/
inductive RaEvent where
  | cancel
  | text (payload : Option Json)
  | closeOrEnd
  | sockErr (msg : String)
  | otherFrame

/-- Handler for a parsed inbound auth text frame (remote_auth.rs lines
253-517), dispatching on the string op.  The third component is true when
the Rust arm breaks out of the loop.  The transient Completing status
written before pending_login / finish finalization is overwritten by the
terminal status within the same arm. -/
def handleRaText (env : AuthEnv) (s : RaState) (payload : Json) :
    RaState × List RaOutput × Bool :=
  let op := ((payload.get "op").bind Json.asStr).getD ""
  if op = "hello" then
    let intervalMs := ((payload.get "heartbeat_interval").bind Json.asU64).getD 41250
    let s1 := { s with hbRunning := true }
    let outs := [RaOutput.startHeartbeat intervalMs,
                 RaOutput.sendInit env.encodedPublicKey]
    if env.sendOk then (s1, outs, false)
    else ({ s1 with status := .error "Failed to send init" }, outs, true)
  else if op = "nonce_proof" then
    let encNonce := ((payload.get "encrypted_nonce").bind Json.asStr).getD ""
    match env.b64stdDecode encNonce with
    | none => ({ s with status := .error "Bad nonce base64" }, [], true)
    | some encrypted =>
        match env.rsaDecrypt encrypted with
        | none => ({ s with status := .error "Nonce decrypt error" }, [], true)
        | some decrypted =>
            let proof := env.b64urlNoPadEncode (env.sha256 decrypted)
            if env.sendOk then (s, [.sendNonceProof proof], false)
            else
              ({ s with status := .error "Failed to send nonce_proof" },
                [.sendNonceProof proof], true)
  else if op = "pending_remote_init" then
    let fingerprint := ((payload.get "fingerprint").bind Json.asStr).getD ""
    if fingerprint = "" then
      ({ s with status := .error "Empty fingerprint" }, [], true)
    else
      let raUrl := "https://discord.com/ra/" ++ fingerprint
      match env.qrDataUri raUrl with
      | .error e => ({ s with status := .error e }, [], true)
      | .ok qrUrl => ({ s with status := .qrReady qrUrl raUrl }, [], false)
  else if op = "pending_ticket" then ({ s with status := .scanned }, [], false)
  else if op = "pending_login" then
    let ticket := ((payload.get "ticket").bind Json.asStr).getD ""
    if ticket = "" then ({ s with status := .error "Empty ticket" }, [], true)
    else
      match env.finalizeTicket ticket with
      | .ok auth => ({ s with status := .completed auth }, [], true)
      | .error msg => ({ s with status := .error msg }, [], true)
  else if op = "finish" then
    match (payload.get "encrypted_token").bind Json.asStr with
    | some encToken =>
        match env.decryptAndLogin encToken with
        | .ok auth => ({ s with status := .completed auth }, [], true)
        | .error msg => ({ s with status := .error msg }, [], true)
    | none => (s, [], false)
  else if op = "cancel" then ({ s with status := .cancelled }, [], true)
  else (s, [], false)

/-- One iteration of run_remote_auth_flow's select loop (lines 240-560). -/
def raStep (env : AuthEnv) (s : RaState) (e : RaEvent) :
    RaState × List RaOutput × Bool :=
  match e with
  | .cancel => ({ s with status := .cancelled }, [], true)
  | .text none => (s, [], false)
  | .text (some payload) => handleRaText env s payload
  | .closeOrEnd =>
      if s.status.isTerminal then (s, [], true)
      else ({ s with status := .error "WebSocket closed by Discord" }, [], true)
  | .sockErr msg =>
      ({ s with status := .error ("WebSocket error: " ++ msg) }, [], true)
  | .otherFrame => (s, [], false)

/-- The flow loop over a list of arriving events; the Bool records whether
the loop broke (exited) before the event list ran out. -/
def runRaLoop (env : AuthEnv) (s : RaState) :
    List RaEvent → RaState × List RaOutput × Bool
  | [] => (s, [], false)
  | e :: es =>
      let r1 := raStep env s e
      if r1.2.2 then r1
      else
        let r2 := runRaLoop env r1.1 es
        (r2.1, r1.2.1 ++ r2.2.1, r2.2.2)

/-- The flow including the post-loop cleanup (lines 562-566): when the
loop exits, the heartbeat sub-task handle is aborted. -/
def runRaFlow (env : AuthEnv) (s : RaState) (evs : List RaEvent) :
    RaState × List RaOutput × Bool :=
  let r := runRaLoop env s evs
  if r.2.2 then ({ r.1 with hbRunning := false }, r.2.1, true) else r

-- ── QR session registry (remote_auth.rs handlers) ───────

/-- Mirrors struct QrSession: polled status plus the optional cancel
sender (present until taken). -/
structure QrSessionRec where
  status : QrStatus
  cancelTx : Option Unit

/-- Mirrors cancel_qr_session (remote_auth.rs lines 117-131): when the
session id is registered, take and fire the cancel sender, overwrite the
status with Cancelled and answer ok=true; otherwise answer 404.  Result:
(updated registry, found, signal fired). -/
def cancel_qr_session (m : List (String × QrSessionRec)) (sid : String) :
    List (String × QrSessionRec) × Bool × Bool :=
  match assocGet m sid with
  | some rec =>
      (assocSet m sid { status := .cancelled, cancelTx := none },
        true, rec.cancelTx.isSome)
  | none => (m, false, false)

-- ── Association list lemmas ─────────────────────────────

theorem assocGet_assocSet {β : Type} (m : List (String × β)) (k : String)
    (v : β) : assocGet (assocSet m k v) k = some v := by
  induction m with
  | nil => simp [assocSet, assocGet]
  | cons hd tl ih =>
      obtain ⟨k', v'⟩ := hd
      by_cases h : k' = k <;> simp [assocSet, assocGet, h, ih]

theorem assocGet_assocRemove {β : Type} (m : List (String × β)) (k : String) :
    assocGet (assocRemove m k) k = none := by
  induction m with
  | nil => simp [assocRemove, assocGet]
  | cons hd tl ih =>
      obtain ⟨k', v'⟩ := hd
      by_cases h : k' = k <;> simp [assocRemove, assocGet, h, ih]

-- ── Dispatch payload construction and routing lemmas ────

/-- Dispatch frame as the gateway emits it: op 0, event name t, optional
data object d. -/
def mkDispatch (t : String) (d : Option Json) : Json :=
  Json.obj ([("op", Json.num 0), ("t", Json.str t)] ++
    (match d with
     | some dd => [("d", dd)]
     | none => []))

theorem gwStep_dispatch_vsu (sendOk : Bool) (s : GwState) (d : Option Json) :
    gwStep sendOk s (.text (some (mkDispatch "VOICE_STATE_UPDATE" d))) =
      handleVoiceStateUpdate s d := by
  cases d <;>
    simp [mkDispatch, gwStep, handleTextPayload, handleDispatch,
      Json.get, Json.get.lookupField, Json.asU64, Json.asStr]

theorem gwStep_dispatch_vserver (sendOk : Bool) (s : GwState) (d : Option Json) :
    gwStep sendOk s (.text (some (mkDispatch "VOICE_SERVER_UPDATE" d))) =
      handleVoiceServerUpdate s d := by
  cases d <;>
    simp [mkDispatch, gwStep, handleTextPayload, handleDispatch,
      Json.get, Json.get.lookupField, Json.asU64, Json.asStr]

theorem gwStep_dispatch_ready (sendOk : Bool) (s : GwState) (d : Option Json) :
    gwStep sendOk s (.text (some (mkDispatch "READY" d))) =
      handleReady s "READY" d := by
  cases d <;>
    simp [mkDispatch, gwStep, handleTextPayload, handleDispatch,
      Json.get, Json.get.lookupField, Json.asU64, Json.asStr]

-- ── Claim theorems ──────────────────────────────────────

/-- C7: a leave(guild) command is answered in the same loop iteration: the
actor sends the op-4 voice-state frame with channel null for the guild and
resolves the reply with success exactly when the frame send succeeded
(failure otherwise), independent of any later gateway event. -/
theorem leaveCmd_resolves_immediately (sendOk : Bool) (s : GwState)
    (g : String) (r : Nat) :
    gwStep sendOk s (.cmd (.leaveVoice g r)) =
      (s, [.sendFrame (.voiceState g none),
            .resolveLeave r
              (if sendOk then .ok () else .error "Failed to send voice leave")]) := by
  cases sendOk <;> simp [gwStep, handleLeaveCmd]

/-- C8: an inbound text frame that fails JSON parsing is dropped silently
by both loops: the gateway step and the remote-auth step leave the state
unchanged, emit nothing, and do not terminate the loop. -/
theorem malformed_text_frame_ignored :
    (∀ (sendOk : Bool) (s : GwState), gwStep sendOk s (.text none) = (s, [])) ∧
    (∀ (env : AuthEnv) (s : RaState), raStep env s (.text none) = (s, [], false)) := by
  constructor
  · intro sendOk s; simp [gwStep]
  · intro env s; simp [raStep]

/-- C10: for any registered session — terminal status included — the
cancel handler overwrites the stored status with Cancelled (taking the
cancel sender) and reports ok=true; no terminal-status check guards the
overwrite. -/
theorem cancelQr_overwrites_unconditionally
    (m : List (String × QrSessionRec)) (sid : String) (rec : QrSessionRec)
    (h : assocGet m sid = some rec) :
    (cancel_qr_session m sid).2.1 = true ∧
      assocGet (cancel_qr_session m sid).1 sid =
        some { status := .cancelled, cancelTx := none } := by
  simp [cancel_qr_session, h, assocGet_assocSet]

/-- Witness for C10: a session whose status is already Completed is
re-labelled Cancelled and the handler answers ok. -/
theorem cancelQr_overwrites_unconditionally_witness :
    (cancel_qr_session
        [("s1", { status := .completed (Json.obj []), cancelTx := some () })]
        "s1").2.1 = true ∧
      assocGet (cancel_qr_session
          [("s1", { status := .completed (Json.obj []), cancelTx := some () })]
          "s1").1 "s1" =
        some { status := .cancelled, cancelTx := none } :=
  cancelQr_overwrites_unconditionally _ "s1"
    { status := .completed (Json.obj []), cancelTx := some () } rfl

/-- C6: for a voice-state event with non-empty guild and user id, the
presence cache drops the user from the guild map when the event's
channel_id is null (or absent / non-string, which the code treats alike),
and otherwise stores the participant built from the event's channel,
display name and avatar, overwriting any previous entry. -/
theorem presence_remove_or_overwrite (p : PresenceState) (d : Json)
    (g u : String)
    (hg : (d.get "guild_id").bind Json.asStr = some g) (hg0 : g ≠ "")
    (hu : eventUserIdOf d = u) (hu0 : u ≠ "") :
    ((d.get "channel_id").bind Json.asStr = none →
        assocGet ((assocGet (updatePresence p d) g).getD []) u = none) ∧
    (∀ ch, (d.get "channel_id").bind Json.asStr = some ch →
        assocGet ((assocGet (updatePresence p d) g).getD []) u =
          some { user_id := u, channel_id := some ch,
                 display_name := displayNameOf d,
                 avatar_url := avatarUrlOf d u }) := by
  constructor
  · intro hch
    simp [updatePresence, hg, hu, hg0, hu0, hch, assocGet_assocSet,
      assocGet_assocRemove]
  · intro ch hch
    simp [updatePresence, hg, hu, hg0, hu0, hch, assocGet_assocSet]

/-- Witness for C6: a null-channel event removes user u1 from guild g1 and
a channelled event stores the participant entry. -/
theorem presence_remove_or_overwrite_witness :
    (assocGet ((assocGet (updatePresence
        [("g1", [("u1", { user_id := "u1", channel_id := some "c0",
                          display_name := none, avatar_url := none })])]
        (Json.obj [("guild_id", .str "g1"), ("channel_id", .null),
                   ("user_id", .str "u1")])) "g1").getD []) "u1" = none) ∧
    (assocGet ((assocGet (updatePresence []
        (Json.obj [("guild_id", .str "g1"), ("channel_id", .str "c1"),
                   ("user_id", .str "u1")])) "g1").getD []) "u1" =
      some { user_id := "u1", channel_id := some "c1",
             display_name := none, avatar_url := none }) := by
  constructor
  · exact (presence_remove_or_overwrite
      [("g1", [("u1", { user_id := "u1", channel_id := some "c0",
                        display_name := none, avatar_url := none })])]
      (Json.obj [("guild_id", .str "g1"), ("channel_id", .null),
                 ("user_id", .str "u1")])
      "g1" "u1" rfl (by decide) rfl (by decide)).1 rfl
  · exact (presence_remove_or_overwrite []
      (Json.obj [("guild_id", .str "g1"), ("channel_id", .str "c1"),
                 ("user_id", .str "u1")])
      "g1" "u1" rfl (by decide) rfl (by decide)).2 "c1" rfl

/-- C9: when a VOICE_SERVER_UPDATE resolves the pending join but carries
no token, endpoint or guild_id, and READY never supplied a session id or
user id, the reply is still resolved with success and the VoiceServerInfo
degrades to empty strings for token, session_id and user_id and none for
endpoint and guild_id. -/
theorem voiceServer_resolution_defaults (sendOk : Bool) (s : GwState)
    (d : Json) (g c : String) (r : Nat)
    (hp : s.pendingVoiceJoin = some (g, c, r))
    (hsess : s.sessionId = none) (huser : s.discordUserId = none)
    (ht : (d.get "token").bind Json.asStr = none)
    (he : (d.get "endpoint").bind Json.asStr = none)
    (hgu : (d.get "guild_id").bind Json.asStr = none) :
    (gwStep sendOk s (.text (some (mkDispatch "VOICE_SERVER_UPDATE" (some d))))).2 =
      [.resolveJoin r (.ok { token := "", endpoint := none, guild_id := none,
                             session_id := "", user_id := "" })] ∧
    (gwStep sendOk s (.text (some (mkDispatch "VOICE_SERVER_UPDATE" (some d))))).1.pendingVoiceJoin
      = none := by
  rw [gwStep_dispatch_vserver]
  constructor <;>
    simp [handleVoiceServerUpdate, hp, hsess, huser, ht, he, hgu]

/-- Witness for C9: a fresh-default state with a pending join and an empty
dispatch payload resolves with the all-default VoiceServerInfo. -/
theorem voiceServer_resolution_defaults_witness :
    (gwStep true { pendingVoiceJoin := some ("g1", "c1", 3) }
        (.text (some (mkDispatch "VOICE_SERVER_UPDATE" (some (Json.obj [])))))).2 =
      [.resolveJoin 3 (.ok { token := "", endpoint := none, guild_id := none,
                             session_id := "", user_id := "" })] ∧
    (gwStep true { pendingVoiceJoin := some ("g1", "c1", 3) }
        (.text (some (mkDispatch "VOICE_SERVER_UPDATE" (some (Json.obj [])))))).1.pendingVoiceJoin
      = none :=
  voiceServer_resolution_defaults true { pendingVoiceJoin := some ("g1", "c1", 3) }
    (Json.obj []) "g1" "c1" 3 rfl rfl rfl rfl rfl rfl

/-- C4: nonce-proof round trip.  When the inbound nonce_proof frame's
encrypted_nonce base64-decodes to a ciphertext that the session's private
key decrypts back to the plaintext nonce (which is what encrypting the
nonce under the session's RSA-OAEP public key guarantees), the handler
sends back exactly the URL-safe unpadded base64 encoding of the SHA-256
digest of that plaintext, leaving the status unchanged. -/
theorem nonceProof_roundtrip (env : AuthEnv) (s : RaState)
    (nonce ct : List Nat) (eStr : String)
    (hsend : env.sendOk = true)
    (hb64 : env.b64stdDecode eStr = some ct)
    (hrsa : env.rsaDecrypt ct = some nonce) :
    raStep env s (.text (some (Json.obj
        [("op", .str "nonce_proof"), ("encrypted_nonce", .str eStr)]))) =
      (s, [.sendNonceProof (env.b64urlNoPadEncode (env.sha256 nonce))],
        false) := by
  simp [raStep, handleRaText, Json.get, Json.get.lookupField, Json.asStr,
    hsend, hb64, hrsa]

/-- Witness for C4: a concrete environment whose decode and decrypt invert
a concrete encryption. -/
theorem nonceProof_roundtrip_witness :
    raStep
      { sendOk := true, encodedPublicKey := "pk",
        b64stdDecode := fun _ => some [2, 3],
        rsaDecrypt := fun _ => some [7, 7],
        sha256 := fun l => 0 :: l,
        b64urlNoPadEncode := fun l => toString l.length,
        qrDataUri := fun _ => .ok "",
        finalizeTicket := fun _ => .error "",
        decryptAndLogin := fun _ => .error "" }
      { status := .waitingForQr, hbRunning := true }
      (.text (some (Json.obj
        [("op", .str "nonce_proof"), ("encrypted_nonce", .str "ZZ")]))) =
      ({ status := .waitingForQr, hbRunning := true },
        [.sendNonceProof "3"], false) :=
  nonceProof_roundtrip
    { sendOk := true, encodedPublicKey := "pk",
      b64stdDecode := fun _ => some [2, 3],
      rsaDecrypt := fun _ => some [7, 7],
      sha256 := fun l => 0 :: l,
      b64urlNoPadEncode := fun l => toString l.length,
      qrDataUri := fun _ => .ok "",
      finalizeTicket := fun _ => .error "",
      decryptAndLogin := fun _ => .error "" }
    { status := .waitingForQr, hbRunning := true }
    [7, 7] [2, 3] "ZZ" rfl rfl rfl

/-- C5: a cancel signal delivered at a pre-terminal status makes the flow
set the status to Cancelled, exit, and stop the heartbeat sub-task; and on
every run in which the flow loop exits — completion, error, cancellation
or socket loss — the heartbeat sub-task is stopped. -/
theorem cancel_sets_cancelled_and_heartbeat_stops :
    (∀ (env : AuthEnv) (s : RaState) (evs : List RaEvent),
        s.status.isTerminal = false →
        (runRaFlow env s (.cancel :: evs)).1.status = QrStatus.cancelled ∧
        (runRaFlow env s (.cancel :: evs)).2.2 = true ∧
        (runRaFlow env s (.cancel :: evs)).1.hbRunning = false) ∧
    (∀ (env : AuthEnv) (s : RaState) (evs : List RaEvent),
        (runRaFlow env s evs).2.2 = true →
        (runRaFlow env s evs).1.hbRunning = false) := by
  constructor
  · intro env s evs _h
    refine ⟨?_, ?_, ?_⟩ <;> simp [runRaFlow, runRaLoop, raStep]
  · intro env s evs h
    by_cases hb : (runRaLoop env s evs).2.2
    · simp [runRaFlow, hb]
    · simp [runRaFlow, hb] at h

/-- Witness for C5: a cancel arriving while the QR is displayed (heartbeat
live) ends the run Cancelled with the heartbeat stopped, and a run exiting
through the cancel arm has its heartbeat stopped. -/
theorem cancel_sets_cancelled_and_heartbeat_stops_witness :
    ((runRaFlow
        { sendOk := true, encodedPublicKey := "pk",
          b64stdDecode := fun _ => none, rsaDecrypt := fun _ => none,
          sha256 := fun l => l, b64urlNoPadEncode := fun _ => "",
          qrDataUri := fun _ => .ok "", finalizeTicket := fun _ => .error "",
          decryptAndLogin := fun _ => .error "" }
        { status := .qrReady "q" "r", hbRunning := true }
        (.cancel :: [])).1.status = QrStatus.cancelled ∧
      (runRaFlow
        { sendOk := true, encodedPublicKey := "pk",
          b64stdDecode := fun _ => none, rsaDecrypt := fun _ => none,
          sha256 := fun l => l, b64urlNoPadEncode := fun _ => "",
          qrDataUri := fun _ => .ok "", finalizeTicket := fun _ => .error "",
          decryptAndLogin := fun _ => .error "" }
        { status := .qrReady "q" "r", hbRunning := true }
        (.cancel :: [])).2.2 = true ∧
      (runRaFlow
        { sendOk := true, encodedPublicKey := "pk",
          b64stdDecode := fun _ => none, rsaDecrypt := fun _ => none,
          sha256 := fun l => l, b64urlNoPadEncode := fun _ => "",
          qrDataUri := fun _ => .ok "", finalizeTicket := fun _ => .error "",
          decryptAndLogin := fun _ => .error "" }
        { status := .qrReady "q" "r", hbRunning := true }
        (.cancel :: [])).1.hbRunning = false) ∧
    ((runRaFlow
        { sendOk := true, encodedPublicKey := "pk",
          b64stdDecode := fun _ => none, rsaDecrypt := fun _ => none,
          sha256 := fun l => l, b64urlNoPadEncode := fun _ => "",
          qrDataUri := fun _ => .ok "", finalizeTicket := fun _ => .error "",
          decryptAndLogin := fun _ => .error "" }
        { status := .scanned, hbRunning := true } [.cancel]).1.hbRunning = false) :=
  ⟨cancel_sets_cancelled_and_heartbeat_stops.1
      { sendOk := true, encodedPublicKey := "pk",
        b64stdDecode := fun _ => none, rsaDecrypt := fun _ => none,
        sha256 := fun l => l, b64urlNoPadEncode := fun _ => "",
        qrDataUri := fun _ => .ok "", finalizeTicket := fun _ => .error "",
        decryptAndLogin := fun _ => .error "" }
      { status := .qrReady "q" "r", hbRunning := true } [] rfl,
    cancel_sets_cancelled_and_heartbeat_stops.2
      { sendOk := true, encodedPublicKey := "pk",
        b64stdDecode := fun _ => none, rsaDecrypt := fun _ => none,
        sha256 := fun l => l, b64urlNoPadEncode := fun _ => "",
        qrDataUri := fun _ => .ok "", finalizeTicket := fun _ => .error "",
        decryptAndLogin := fun _ => .error "" }
      { status := .scanned, hbRunning := true } [.cancel] rfl⟩

/-- Counterexample to C2 as stated: with a join already queued before
READY (reply channel 1), a second join does not resolve the first with a
Superseded error — the only effect on it is that its reply sender is
dropped unresolved by the queued-slot overwrite. -/
theorem queued_join_not_superseded_counterexample :
    (gwStep true { queuedJoin := some ("g1", "c1", 1) }
        (.cmd (.joinVoice "g2" "c2" 2))).2 = [.dropJoinReply 1] ∧
    resolveJoinCount (gwStep true { queuedJoin := some ("g1", "c1", 1) }
        (.cmd (.joinVoice "g2" "c2" 2))).2 1 = 0 :=
  ⟨rfl, rfl⟩

/-- C2 amended: at most one join is tracked; a second join while one is
pending resolves the first's reply with the Superseded error and becomes
the tracked pending join; but an older join queued before READY is only
overwritten by a newer one — its reply sender is dropped unresolved, not
resolved with Superseded. -/
theorem join_supersedes_pending_and_drops_queued :
    (∀ (s : GwState) (g c : String) (r : Nat) (g' c' : String) (r' : Nat)
        (sid : String),
        s.sessionId = some sid →
        s.pendingVoiceJoin = some (g, c, r) →
        (gwStep true s (.cmd (.joinVoice g' c' r'))).2 =
          [.resolveJoin r (.error "Superseded by new join request"),
            .sendFrame (.voiceState g' none), .sleepMs 200,
            .sendFrame (.voiceState g' (some c'))] ∧
        (gwStep true s (.cmd (.joinVoice g' c' r'))).1.pendingVoiceJoin =
          some (g', c', r')) ∧
    (∀ (sendOk : Bool) (s : GwState) (g c : String) (r : Nat)
        (g' c' : String) (r' : Nat),
        s.sessionId = none →
        s.queuedJoin = some (g, c, r) →
        (gwStep sendOk s (.cmd (.joinVoice g' c' r'))).2 = [.dropJoinReply r] ∧
        (gwStep sendOk s (.cmd (.joinVoice g' c' r'))).1.queuedJoin =
          some (g', c', r')) := by
  constructor
  · intro s g c r g' c' r' sid h1 h2
    constructor <;> simp [gwStep, handleJoinCmd, h1, h2]
  · intro sendOk s g c r g' c' r' h1 h2
    constructor <;> simp [gwStep, handleJoinCmd, h1, h2]

/-- Witness for the amended C2: both the pending-supersede and the
queued-drop behaviours at concrete states. -/
theorem join_supersedes_pending_and_drops_queued_witness :
    ((gwStep true
        { sessionId := some "s1", pendingVoiceJoin := some ("g1", "c1", 1) }
        (.cmd (.joinVoice "g2" "c2" 2))).2 =
      [.resolveJoin 1 (.error "Superseded by new join request"),
        .sendFrame (.voiceState "g2" none), .sleepMs 200,
        .sendFrame (.voiceState "g2" (some "c2"))] ∧
      (gwStep true
        { sessionId := some "s1", pendingVoiceJoin := some ("g1", "c1", 1) }
        (.cmd (.joinVoice "g2" "c2" 2))).1.pendingVoiceJoin =
        some ("g2", "c2", 2)) ∧
    ((gwStep true { queuedJoin := some ("g1", "c1", 3) }
        (.cmd (.joinVoice "g2" "c2" 4))).2 =
      [.dropJoinReply 3] ∧
      (gwStep true { queuedJoin := some ("g1", "c1", 3) }
        (.cmd (.joinVoice "g2" "c2" 4))).1.queuedJoin = some ("g2", "c2", 4)) :=
  ⟨join_supersedes_pending_and_drops_queued.1
      { sessionId := some "s1", pendingVoiceJoin := some ("g1", "c1", 1) }
      "g1" "c1" 1 "g2" "c2" 2 "s1" rfl rfl,
    join_supersedes_pending_and_drops_queued.2 true
      { queuedJoin := some ("g1", "c1", 3) } "g1" "c1" 3 "g2" "c2" 4 rfl rfl⟩

/-- Counterexample to C3 as stated: a queued join replayed at READY sends
the op-4 join frame directly — no channel-null frame and no delay precede
it. -/
theorem replayed_join_skips_leave_counterexample :
    (gwStep true { queuedJoin := some ("g1", "c1", 1) }
        (.text (some (mkDispatch "READY"
          (some (Json.obj [("session_id", .str "s1")])))))).2 =
      [.sendFrame (.voiceState "g1" (some "c1"))] :=
  rfl

/-- C3 amended: a join processed while Ready is preceded by a channel-null
voice-state frame for the guild and a fixed 200 ms delay before the op-4
join frame; a queued join replayed at READY is sent directly, with no
prior leave frame and no delay. -/
theorem join_leave_delay_behaviour :
    (∀ (s : GwState) (g c : String) (r : Nat) (sid : String),
        s.sessionId = some sid →
        s.pendingVoiceJoin = none →
        (gwStep true s (.cmd (.joinVoice g c r))).2 =
          [.sendFrame (.voiceState g none), .sleepMs 200,
            .sendFrame (.voiceState g (some c))]) ∧
    (∀ (sendOk : Bool) (s : GwState) (g c : String) (r : Nat) (d : Option Json),
        s.queuedJoin = some (g, c, r) →
        (gwStep sendOk s (.text (some (mkDispatch "READY" d)))).2 =
          [.sendFrame (.voiceState g (some c))]) := by
  constructor
  · intro s g c r sid h1 h2
    simp [gwStep, handleJoinCmd, h1, h2]
  · intro sendOk s g c r d h
    rw [gwStep_dispatch_ready]
    cases d <;> simp [handleReady, h]

/-- Witness for the amended C3: a live join emits leave, delay, join; a
replayed queued join emits only the join frame. -/
theorem join_leave_delay_behaviour_witness :
    ((gwStep true { sessionId := some "s1" } (.cmd (.joinVoice "g1" "c1" 1))).2 =
      [.sendFrame (.voiceState "g1" none), .sleepMs 200,
        .sendFrame (.voiceState "g1" (some "c1"))]) ∧
    ((gwStep true { queuedJoin := some ("g2", "c2", 2) }
        (.text (some (mkDispatch "READY" none)))).2 =
      [.sendFrame (.voiceState "g2" (some "c2"))]) :=
  ⟨join_leave_delay_behaviour.1 { sessionId := some "s1" } "g1" "c1" 1 "s1" rfl rfl,
    join_leave_delay_behaviour.2 true { queuedJoin := some ("g2", "c2", 2) }
      "g2" "c2" 2 none rfl⟩

-- ── C1: pending-join resolution across event orders ─────

/-- Counterexample to C1 as stated: with a join pending and no owner
VOICE_STATE_UPDATE processed at all, a VOICE_SERVER_UPDATE alone resolves
the reply immediately — the actor does not wait for the state event. -/
theorem vserver_resolves_without_state_event_counterexample :
    (gwStep true
        { sessionId := some "s1", discordUserId := some "u1",
          pendingVoiceJoin := some ("g1", "c1", 1) }
        (.text (some (mkDispatch "VOICE_SERVER_UPDATE" (some (Json.obj
          [("token", .str "T"), ("endpoint", .str "ep"),
           ("guild_id", .str "g1")])))))).2 =
      [.resolveJoin 1 (.ok { token := "T", endpoint := some "ep",
                             guild_id := some "g1", session_id := "s1",
                             user_id := "u1" })] :=
  rfl

/-- Owner voice events interleaved while a join is pending: a
VOICE_STATE_UPDATE or VOICE_SERVER_UPDATE dispatch with optional data. -/
inductive VoiceEv where
  | stateUpd (d : Option Json)
  | serverUpd (d : Option Json)

/-- The gateway event carrying a voice dispatch. -/
def VoiceEv.toEvent : VoiceEv → GwEvent
  | .stateUpd d => .text (some (mkDispatch "VOICE_STATE_UPDATE" d))
  | .serverUpd d => .text (some (mkDispatch "VOICE_SERVER_UPDATE" d))

/-- Whether the event is a VOICE_SERVER_UPDATE carrying a data object —
the trigger that resolves the pending join. -/
def VoiceEv.hasServerData : VoiceEv → Bool
  | .serverUpd (some _) => true
  | _ => false

theorem handleVSU_token_none (s : GwState) (d : Option Json)
    (ht : s.voiceToken = none) :
    (handleVoiceStateUpdate s d).1.pendingVoiceJoin = s.pendingVoiceJoin ∧
    (handleVoiceStateUpdate s d).1.voiceToken = none ∧
    (handleVoiceStateUpdate s d).1.running = s.running ∧
    (handleVoiceStateUpdate s d).2 = [] := by
  cases d with
  | none => simp [handleVoiceStateUpdate, ht]
  | some data => simp [handleVoiceStateUpdate, ht]

theorem handleVSU_pending_none (s : GwState) (d : Option Json)
    (hp : s.pendingVoiceJoin = none) :
    (handleVoiceStateUpdate s d).1.pendingVoiceJoin = none ∧
    (handleVoiceStateUpdate s d).1.running = s.running ∧
    (handleVoiceStateUpdate s d).2 = [] := by
  cases d with
  | none => simp [handleVoiceStateUpdate, hp]
  | some data => simp [handleVoiceStateUpdate, hp]

theorem handleVServer_pending_none (s : GwState) (d : Option Json)
    (hp : s.pendingVoiceJoin = none) :
    (handleVoiceServerUpdate s d).1.pendingVoiceJoin = none ∧
    (handleVoiceServerUpdate s d).1.running = s.running ∧
    (handleVoiceServerUpdate s d).2 = [] := by
  cases d with
  | none => simp [handleVoiceServerUpdate, hp]
  | some data => simp [handleVoiceServerUpdate, hp]

theorem handleVServer_resolves (s : GwState) (data : Json)
    (g c : String) (r : Nat)
    (hp : s.pendingVoiceJoin = some (g, c, r)) :
    (handleVoiceServerUpdate s (some data)).1.pendingVoiceJoin = none ∧
    (handleVoiceServerUpdate s (some data)).1.voiceToken = none ∧
    (handleVoiceServerUpdate s (some data)).1.running = s.running ∧
    resolveJoinCount (handleVoiceServerUpdate s (some data)).2 r = 1 := by
  simp [handleVoiceServerUpdate, hp, resolveJoinCount]

/-- Once the pending slot is empty, no sequence of voice dispatch events
produces any output (in particular no further resolution). -/
theorem runVoice_pending_none (sendOk : Bool) (evs : List VoiceEv) :
    ∀ (s : GwState), s.pendingVoiceJoin = none →
      (runGwLoop sendOk s (evs.map VoiceEv.toEvent)).2 = [] := by
  induction evs with
  | nil => intro s _; simp [runGwLoop]
  | cons e es ih =>
      intro s hp
      cases hr : s.running with
      | false => simp [runGwLoop, hr]
      | true =>
          cases e with
          | stateUpd d =>
              obtain ⟨h1, h2, h3⟩ := handleVSU_pending_none s d hp
              simp [runGwLoop, hr, VoiceEv.toEvent, gwStep_dispatch_vsu, h3,
                ih _ h1]
          | serverUpd d =>
              obtain ⟨h1, h2, h3⟩ := handleVServer_pending_none s d hp
              simp [runGwLoop, hr, VoiceEv.toEvent, gwStep_dispatch_vserver, h3,
                ih _ h1]

/-- C1 amended: for every arrival order of owner voice events while a join
is pending (with the voice token cleared, as every join path leaves it),
the pending join's reply channel is resolved exactly once as soon as a
VOICE_SERVER_UPDATE carrying data arrives — and zero times until then: the
actor does not wait for the owner's VOICE_STATE_UPDATE. -/
theorem pending_join_resolves_once (sendOk : Bool) (evs : List VoiceEv) :
    ∀ (s : GwState) (g c : String) (r : Nat),
      s.running = true →
      s.pendingVoiceJoin = some (g, c, r) →
      s.voiceToken = none →
      resolveJoinCount (runGwLoop sendOk s (evs.map VoiceEv.toEvent)).2 r =
        (if evs.any VoiceEv.hasServerData then 1 else 0) := by
  induction evs with
  | nil => intro s g c r hr hp ht; simp [runGwLoop, resolveJoinCount]
  | cons e es ih =>
      intro s g c r hr hp ht
      cases e with
      | stateUpd d =>
          obtain ⟨h1, h2, h3, h4⟩ := handleVSU_token_none s d ht
          have hr' : (handleVoiceStateUpdate s d).1.running = true := by
            rw [h3]; exact hr
          have hp' : (handleVoiceStateUpdate s d).1.pendingVoiceJoin =
              some (g, c, r) := by rw [h1]; exact hp
          simp [runGwLoop, hr, VoiceEv.toEvent, gwStep_dispatch_vsu, h4,
            VoiceEv.hasServerData, ih _ g c r hr' hp' h2]
      | serverUpd d =>
          cases d with
          | none =>
              simp only [List.map_cons, VoiceEv.toEvent, runGwLoop, hr,
                if_true, gwStep_dispatch_vserver]
              have hstep : handleVoiceServerUpdate s none = (s, []) := rfl
              simp [hstep, VoiceEv.hasServerData, ih _ g c r hr hp ht]
          | some data =>
              obtain ⟨h1, h2, h3, h4⟩ :=
                handleVServer_resolves s data g c r hp
              have hrest :=
                runVoice_pending_none sendOk es
                  (handleVoiceServerUpdate s (some data)).1 h1
              simp [runGwLoop, hr, VoiceEv.toEvent, gwStep_dispatch_vserver,
                VoiceEv.hasServerData, resolveJoinCount, List.countP_append,
                hrest]
              have := h4
              simpa [resolveJoinCount] using this

/-- Witness for the amended C1: a pending join sees an owner state update
(no resolution), then two server updates; the reply resolves exactly
once. -/
theorem pending_join_resolves_once_witness :
    resolveJoinCount (runGwLoop true
      { sessionId := some "s1", discordUserId := some "u1",
        pendingVoiceJoin := some ("g1", "c1", 5) }
      ([VoiceEv.stateUpd (some (Json.obj
          [("guild_id", .str "g1"), ("channel_id", .str "c1"),
           ("user_id", .str "u1")])),
        VoiceEv.serverUpd (some (Json.obj [("token", .str "T")])),
        VoiceEv.serverUpd (some (Json.obj [("token", .str "T2")]))].map
        VoiceEv.toEvent)).2 5 = 1 :=
  pending_join_resolves_once true
    [VoiceEv.stateUpd (some (Json.obj
        [("guild_id", .str "g1"), ("channel_id", .str "c1"),
         ("user_id", .str "u1")])),
      VoiceEv.serverUpd (some (Json.obj [("token", .str "T")])),
      VoiceEv.serverUpd (some (Json.obj [("token", .str "T2")]))]
    { sessionId := some "s1", discordUserId := some "u1",
      pendingVoiceJoin := some ("g1", "c1", 5) }
    "g1" "c1" 5 rfl rfl rfl

end Voxium
